import Mathlib

/-!
Verification development for the `token-helpers` TypeScript library
(`src/index.ts`).  The library exports three functions:

* `createAssociatedTokenAccountInstructions` — fetches the mint account,
  validates its owning program, derives the associated-token PDA, builds the
  create-ATA instruction (idempotent or not) and, for Token-2022 mints that
  are Token-ACL mints, an extra thaw-permissionless instruction;
* `createAssociatedTokenAccount` — assembles, signs and sends (without
  confirming) a transaction carrying those instructions;
* `createAndConfirmAssociatedTokenAccount` — same, but sends through the
  send-and-confirm facility.

All external collaborators (`@solana/kit`, `@solana-program/token-2022`,
`@token-acl/sdk`) are modelled as an environment `Env` of opaque functions
over type parameters: `ι` for instructions, `μ` for decoded mints, `β` for
blockhashes, `τ` for transaction messages, `σ` for signed transactions and
`π` for transaction signers.  Each library function is translated to a pure
Lean function over `Env` that also returns the ordered trace of external
calls it performs; thrown JavaScript errors become `Except` errors.
-/

namespace TokenHelpers

/-- Addresses are base58 strings, compared with `==` / `!=` in the source. -/
abbrev Address := String

/-- `TOKEN_PROGRAM_ADDRESS` from `@solana-program/token`. -/
def TOKEN_PROGRAM_ADDRESS : Address :=
  "TokenkegQfeZyiNwAJbNbGKPFXCWuBvf9Ss623VQ5DA"

/-- `TOKEN_2022_PROGRAM_ADDRESS` from `@solana-program/token-2022`. -/
def TOKEN_2022_PROGRAM_ADDRESS : Address :=
  "TokenzQdBNbLqP5VEhdkAS6EPFLC1PHnBqCXEpPxuEb"

/-- `ASSOCIATED_TOKEN_PROGRAM_ADDRESS` from `@solana-program/token`. -/
def ASSOCIATED_TOKEN_PROGRAM_ADDRESS : Address :=
  "ATokenGPvbdGVxr1b2hvZbsiqW5xWH25efTNsLJA8knL"

/-- Result of `fetchEncodedAccount`: either the account does not exist, or it
carries an owning program address and raw data bytes. -/
structure MaybeEncodedAccount where
  accountExists : Bool
  programAddress : Address
  data : List Nat
deriving DecidableEq

/-- The seeds record passed to `findAssociatedTokenPda`. -/
structure FindPdaInput where
  mint : Address
  owner : Address
  tokenProgram : Address
deriving DecidableEq

/-- The `{ programAddress }` config record passed to PDA derivation and to the
instruction builders. -/
structure PdaConfig where
  programAddress : Address
deriving DecidableEq

/-- The input record of `getCreateAssociatedTokenInstruction` and
`getCreateAssociatedTokenIdempotentInstruction`. -/
structure CreateAtaInput (π : Type) where
  ata : Address
  mint : Address
  owner : Address
  payer : π
  tokenProgram : Address
deriving DecidableEq

/-- Errors thrown by the external send facilities.  `preflightFailure` stands
for a `SolanaError` with code
`SOLANA_ERROR__JSON_RPC__SERVER_ERROR_SEND_TRANSACTION_PREFLIGHT_FAILURE`
(carrying its `cause`); `other` is any other thrown value. -/
inductive SendError where
  | preflightFailure (cause : String)
  | other (payload : String)
deriving DecidableEq

/-- `isSolanaError(e, SOLANA_ERROR__JSON_RPC__SERVER_ERROR_SEND_TRANSACTION_PREFLIGHT_FAILURE)`. -/
def isPreflightFailureError : SendError → Bool
  | SendError.preflightFailure _ => true
  | SendError.other _ => false

/-- Errors thrown by this library's functions: either a fresh
`new Error(msg)` constructed here, or an external send error rethrown
unchanged. -/
inductive JsError where
  | jsError (msg : String)
  | solanaError (e : SendError)
deriving DecidableEq

/-- Which external send facility a send call went through. -/
inductive SendKind where
  | withoutConfirming
  | andConfirm
deriving DecidableEq

/-- One external-collaborator call, recorded in program order. -/
inductive CallTag where
  | fetchEncodedAccount (mintAddress : Address)
  | findAssociatedTokenPda (mint owner tokenProgram : Address)
  | buildCreateAta (idempotent : Bool)
  | decodeMint
  | isTokenAclMintFromMint
  | buildThawPermissionless (idempotent : Bool)
  | getLatestBlockhash
  | signTransaction
  | getSignatureFromTransaction
  | sendTransaction (kind : SendKind)
deriving DecidableEq

/-- The environment of external collaborators.  A value of this structure
fixes the responses of the RPC node, the PDA derivation, the instruction
builders, the ACL check, the transaction-message combinators, the signer and
the two send facilities for one run. -/
structure Env (ι μ β τ σ π : Type) where
  fetchEncodedAccount : Address → MaybeEncodedAccount
  findAssociatedTokenPda : FindPdaInput → PdaConfig → Address × Nat
  getCreateAssociatedTokenInstruction : CreateAtaInput π → PdaConfig → ι
  getCreateAssociatedTokenIdempotentInstruction : CreateAtaInput π → PdaConfig → ι
  decodeMint : List Nat → μ
  isTokenAclMintFromMint : μ → Bool
  createThawPermissionlessInstructionFromMint :
    μ → Address → Address → Address → π → Bool → ι
  getLatestBlockhash : β
  createTransactionMessage : Nat → τ
  setTransactionMessageFeePayerSigner : π → τ → τ
  setTransactionMessageLifetimeUsingBlockhash : β → τ → τ
  appendTransactionMessageInstructions : List ι → τ → τ
  signTransactionMessageWithSigners : τ → σ
  getSignatureFromTransaction : σ → String
  sendTransactionWithoutConfirming : σ → Except SendError Unit
  sendAndConfirmTransaction : σ → Except SendError Unit

/-- Return value of `createAssociatedTokenAccountInstructions`. -/
structure InstructionsResult (ι : Type) where
  instructions : List ι
  associatedTokenAddress : Address
deriving DecidableEq

section Functions

variable {ι μ β τ σ π : Type}

/-- Shallow embedding of `createAssociatedTokenAccountInstructions`
(src/index.ts lines 50–132).  Returns the function's outcome together with
the ordered trace of external calls performed. -/
def createAssociatedTokenAccountInstructions (env : Env ι μ β τ σ π)
    (payer : π) (owner mintAddress : Address) (idempotent : Bool) :
    Except JsError (InstructionsResult ι) × List CallTag :=
  let mintAccount := env.fetchEncodedAccount mintAddress
  let t0 : List CallTag := [CallTag.fetchEncodedAccount mintAddress]
  if mintAccount.accountExists = false ∨
      (mintAccount.programAddress ≠ TOKEN_2022_PROGRAM_ADDRESS ∧
       mintAccount.programAddress ≠ TOKEN_PROGRAM_ADDRESS) then
    (Except.error (JsError.jsError "Provided mintAddress is not a valid token mint"), t0)
  else
    let tokenProgram := mintAccount.programAddress
    let associatedTokenAddress :=
      (env.findAssociatedTokenPda
        { mint := mintAddress, owner := owner, tokenProgram := tokenProgram }
        { programAddress := ASSOCIATED_TOKEN_PROGRAM_ADDRESS }).1
    let t1 := t0 ++ [CallTag.findAssociatedTokenPda mintAddress owner tokenProgram]
    let createAtaInstruction :=
      if idempotent then
        env.getCreateAssociatedTokenIdempotentInstruction
          { ata := associatedTokenAddress, mint := mintAddress, owner := owner,
            payer := payer, tokenProgram := tokenProgram }
          { programAddress := ASSOCIATED_TOKEN_PROGRAM_ADDRESS }
      else
        env.getCreateAssociatedTokenInstruction
          { ata := associatedTokenAddress, mint := mintAddress, owner := owner,
            payer := payer, tokenProgram := tokenProgram }
          { programAddress := ASSOCIATED_TOKEN_PROGRAM_ADDRESS }
    let t2 := t1 ++ [CallTag.buildCreateAta idempotent]
    if tokenProgram = TOKEN_PROGRAM_ADDRESS then
      (Except.ok { instructions := [createAtaInstruction],
                   associatedTokenAddress := associatedTokenAddress }, t2)
    else
      let mint := env.decodeMint mintAccount.data
      let t3 := t2 ++ [CallTag.decodeMint]
      let isTokenAclMint := env.isTokenAclMintFromMint mint
      let t4 := t3 ++ [CallTag.isTokenAclMintFromMint]
      if isTokenAclMint = false then
        (Except.ok { instructions := [createAtaInstruction],
                     associatedTokenAddress := associatedTokenAddress }, t4)
      else
        let thawInstruction :=
          env.createThawPermissionlessInstructionFromMint
            mint mintAddress owner associatedTokenAddress payer idempotent
        (Except.ok { instructions := [createAtaInstruction, thawInstruction],
                     associatedTokenAddress := associatedTokenAddress },
         t4 ++ [CallTag.buildThawPermissionless idempotent])

/-- Return value of the two transaction-submitting functions. -/
structure SubmitResult where
  signature : String
  associatedTokenAddress : Address
deriving DecidableEq

/-- The transaction message assembled by the `pipe` in both submitting
functions: `createTransactionMessage({version: 0})`, then fee-payer signer,
then blockhash lifetime, then the instructions. -/
def assembleTransactionMessage (env : Env ι μ β τ σ π) (payer : π)
    (latestBlockhash : β) (instructions : List ι) : τ :=
  env.appendTransactionMessageInstructions instructions
    (env.setTransactionMessageLifetimeUsingBlockhash latestBlockhash
      (env.setTransactionMessageFeePayerSigner payer
        (env.createTransactionMessage 0)))

/-- Shallow embedding of `createAssociatedTokenAccount`
(src/index.ts lines 143–191): builds the instructions, fetches the latest
blockhash, assembles and signs the transaction, extracts the signature, then
sends once through `sendTransactionWithoutConfirmingFactory`; a preflight
failure becomes `new Error("The transaction failed in simulation")`, any
other send error is rethrown. -/
def createAssociatedTokenAccount (env : Env ι μ β τ σ π)
    (payer : π) (owner mint : Address) (idempotent : Bool) :
    Except JsError SubmitResult × List CallTag :=
  match createAssociatedTokenAccountInstructions env payer owner mint idempotent with
  | (Except.error e, t) => (Except.error e, t)
  | (Except.ok r, t) =>
    let latestBlockhash := env.getLatestBlockhash
    let transactionMessage :=
      assembleTransactionMessage env payer latestBlockhash r.instructions
    let signedTransaction :=
      env.signTransactionMessageWithSigners transactionMessage
    let signature := env.getSignatureFromTransaction signedTransaction
    let t1 := t ++ [CallTag.getLatestBlockhash, CallTag.signTransaction,
                    CallTag.getSignatureFromTransaction,
                    CallTag.sendTransaction SendKind.withoutConfirming]
    match env.sendTransactionWithoutConfirming signedTransaction with
    | Except.error e =>
      if isPreflightFailureError e then
        (Except.error (JsError.jsError "The transaction failed in simulation"), t1)
      else
        (Except.error (JsError.solanaError e), t1)
    | Except.ok _ =>
      (Except.ok { signature := signature,
                   associatedTokenAddress := r.associatedTokenAddress }, t1)

/-- Shallow embedding of `createAndConfirmAssociatedTokenAccount`
(src/index.ts lines 203–260): identical assembly, but the single send goes
through `sendAndConfirmTransactionFactory` (which also takes the
`rpcSubscriptions` collaborator, fixed inside `env`). -/
def createAndConfirmAssociatedTokenAccount (env : Env ι μ β τ σ π)
    (payer : π) (owner mint : Address) (idempotent : Bool) :
    Except JsError SubmitResult × List CallTag :=
  match createAssociatedTokenAccountInstructions env payer owner mint idempotent with
  | (Except.error e, t) => (Except.error e, t)
  | (Except.ok r, t) =>
    let latestBlockhash := env.getLatestBlockhash
    let transactionMessage :=
      assembleTransactionMessage env payer latestBlockhash r.instructions
    let signedTransaction :=
      env.signTransactionMessageWithSigners transactionMessage
    let signature := env.getSignatureFromTransaction signedTransaction
    let t1 := t ++ [CallTag.getLatestBlockhash, CallTag.signTransaction,
                    CallTag.getSignatureFromTransaction,
                    CallTag.sendTransaction SendKind.andConfirm]
    match env.sendAndConfirmTransaction signedTransaction with
    | Except.error e =>
      if isPreflightFailureError e then
        (Except.error (JsError.jsError "The transaction failed in simulation"), t1)
      else
        (Except.error (JsError.solanaError e), t1)
    | Except.ok _ =>
      (Except.ok { signature := signature,
                   associatedTokenAddress := r.associatedTokenAddress }, t1)

/-- Generic submission path: the common code of the two submitting functions,
abstracted over the external send facility used for the single send call.
This is the refinement target for the equivalence claim: each submitting
function is exactly `submitWith` applied to its own send facility. -/
def submitWith (env : Env ι μ β τ σ π) (send : σ → Except SendError Unit)
    (kind : SendKind) (payer : π) (owner mint : Address) (idempotent : Bool) :
    Except JsError SubmitResult × List CallTag :=
  match createAssociatedTokenAccountInstructions env payer owner mint idempotent with
  | (Except.error e, t) => (Except.error e, t)
  | (Except.ok r, t) =>
    let latestBlockhash := env.getLatestBlockhash
    let transactionMessage :=
      assembleTransactionMessage env payer latestBlockhash r.instructions
    let signedTransaction :=
      env.signTransactionMessageWithSigners transactionMessage
    let signature := env.getSignatureFromTransaction signedTransaction
    let t1 := t ++ [CallTag.getLatestBlockhash, CallTag.signTransaction,
                    CallTag.getSignatureFromTransaction,
                    CallTag.sendTransaction kind]
    match send signedTransaction with
    | Except.error e =>
      if isPreflightFailureError e then
        (Except.error (JsError.jsError "The transaction failed in simulation"), t1)
      else
        (Except.error (JsError.solanaError e), t1)
    | Except.ok _ =>
      (Except.ok { signature := signature,
                   associatedTokenAddress := r.associatedTokenAddress }, t1)

/-- Calling `createAssociatedTokenAccountInstructions` with the `idempotent`
parameter omitted: the source declares it as `idempotent: boolean = false`. -/
def createAssociatedTokenAccountInstructionsDefault (env : Env ι μ β τ σ π)
    (payer : π) (owner mintAddress : Address) :
    Except JsError (InstructionsResult ι) × List CallTag :=
  createAssociatedTokenAccountInstructions env payer owner mintAddress false

/-- Calling `createAssociatedTokenAccount` with the `idempotent` parameter
omitted: the source declares it as `idempotent: boolean = false`. -/
def createAssociatedTokenAccountDefault (env : Env ι μ β τ σ π)
    (payer : π) (owner mint : Address) :
    Except JsError SubmitResult × List CallTag :=
  createAssociatedTokenAccount env payer owner mint false

/-- Calling `createAndConfirmAssociatedTokenAccount` with the `idempotent`
parameter omitted: the source declares it as `idempotent: boolean = false`. -/
def createAndConfirmAssociatedTokenAccountDefault (env : Env ι μ β τ σ π)
    (payer : π) (owner mint : Address) :
    Except JsError SubmitResult × List CallTag :=
  createAndConfirmAssociatedTokenAccount env payer owner mint false

/-- Named subexpression of the source: the token program detected from the
owning program of the fetched mint account (`mintAccount.programAddress`). -/
def detectedTokenProgram (env : Env ι μ β τ σ π) (mintAddress : Address) : Address :=
  (env.fetchEncodedAccount mintAddress).programAddress

/-- Named subexpression of the source: the associated-token address derived by
`findAssociatedTokenPda` from the mint, owner and detected token program under
the associated token program. -/
def derivedAta (env : Env ι μ β τ σ π) (owner mintAddress : Address) : Address :=
  (env.findAssociatedTokenPda
    { mint := mintAddress, owner := owner,
      tokenProgram := detectedTokenProgram env mintAddress }
    { programAddress := ASSOCIATED_TOKEN_PROGRAM_ADDRESS }).1

/-- Named subexpression of the source: the decoded mint
(`getMintDecoder().decode(mintAccount.data)`). -/
def decodedMint (env : Env ι μ β τ σ π) (mintAddress : Address) : μ :=
  env.decodeMint (env.fetchEncodedAccount mintAddress).data

/-- Named subexpression of the source: the create-ATA instruction built by the
(idempotent or plain) external builder. -/
def builtCreateAtaInstruction (env : Env ι μ β τ σ π) (payer : π)
    (owner mintAddress : Address) (idempotent : Bool) : ι :=
  if idempotent then
    env.getCreateAssociatedTokenIdempotentInstruction
      { ata := derivedAta env owner mintAddress, mint := mintAddress,
        owner := owner, payer := payer,
        tokenProgram := detectedTokenProgram env mintAddress }
      { programAddress := ASSOCIATED_TOKEN_PROGRAM_ADDRESS }
  else
    env.getCreateAssociatedTokenInstruction
      { ata := derivedAta env owner mintAddress, mint := mintAddress,
        owner := owner, payer := payer,
        tokenProgram := detectedTokenProgram env mintAddress }
      { programAddress := ASSOCIATED_TOKEN_PROGRAM_ADDRESS }

/-- Named subexpression of the source: the thaw-permissionless instruction
built by `createThawPermissionlessInstructionFromMint`. -/
def builtThawInstruction (env : Env ι μ β τ σ π) (payer : π)
    (owner mintAddress : Address) (idempotent : Bool) : ι :=
  env.createThawPermissionlessInstructionFromMint
    (decodedMint env mintAddress) mintAddress owner
    (derivedAta env owner mintAddress) payer idempotent

/-- The signed transaction each submitting function hands to its send
facility, when the instruction-building phase succeeds. -/
def assembledSignedTransaction (env : Env ι μ β τ σ π) (payer : π)
    (owner mint : Address) (idempotent : Bool) : Option σ :=
  match (createAssociatedTokenAccountInstructions env payer owner mint idempotent).1 with
  | Except.error _ => none
  | Except.ok r =>
    some (env.signTransactionMessageWithSigners
      (assembleTransactionMessage env payer env.getLatestBlockhash r.instructions))

/-- Recognizes a call to an external send facility in a trace. -/
def isSendCall : CallTag → Bool
  | CallTag.sendTransaction _ => true
  | _ => false

/-- Recognizes a call to `signTransactionMessageWithSigners` in a trace. -/
def isSignCall : CallTag → Bool
  | CallTag.signTransaction => true
  | _ => false

/-- One invocation of an exported function of the module, with its
arguments. -/
inductive ModuleCall (π : Type) where
  | instructionsCall (payer : π) (owner mint : Address) (idempotent : Bool)
  | createCall (payer : π) (owner mint : Address) (idempotent : Bool)
  | createAndConfirmCall (payer : π) (owner mint : Address) (idempotent : Bool)

/-- The value an invocation of an exported function produces. -/
inductive ModuleResult (ι : Type) where
  | instructionsValue (r : Except JsError (InstructionsResult ι) × List CallTag)
  | submitValue (r : Except JsError SubmitResult × List CallTag)

/-- Executes one exported-function invocation against the collaborators. -/
def runModuleCall (env : Env ι μ β τ σ π) : ModuleCall π → ModuleResult ι
  | ModuleCall.instructionsCall p o m i =>
    ModuleResult.instructionsValue
      (createAssociatedTokenAccountInstructions env p o m i)
  | ModuleCall.createCall p o m i =>
    ModuleResult.submitValue (createAssociatedTokenAccount env p o m i)
  | ModuleCall.createAndConfirmCall p o m i =>
    ModuleResult.submitValue (createAndConfirmAssociatedTokenAccount env p o m i)

/-- Executes a sequence of invocations of the module's exported functions, in
order.  The module keeps no state between invocations, so the execution
carries none. -/
def runModuleCalls (env : Env ι μ β τ σ π) : List (ModuleCall π) → List (ModuleResult ι)
  | [] => []
  | c :: cs => runModuleCall env c :: runModuleCalls env cs

end Functions

/-- A concrete environment used to instantiate the theorems: a Token-Program
mint, every collaborator deterministic, both send facilities succeeding. -/
def exEnvToken : Env Nat Nat Nat Nat Nat String where
  fetchEncodedAccount := fun _ =>
    { accountExists := true, programAddress := TOKEN_PROGRAM_ADDRESS, data := [0, 1] }
  findAssociatedTokenPda := fun _ _ => ("ataAddr11111111111111111111111111111111111", 255)
  getCreateAssociatedTokenInstruction := fun _ _ => 1
  getCreateAssociatedTokenIdempotentInstruction := fun _ _ => 2
  decodeMint := fun _ => 0
  isTokenAclMintFromMint := fun _ => false
  createThawPermissionlessInstructionFromMint := fun _ _ _ _ _ _ => 3
  getLatestBlockhash := 7
  createTransactionMessage := fun v => v
  setTransactionMessageFeePayerSigner := fun _ t => t + 10
  setTransactionMessageLifetimeUsingBlockhash := fun b t => t + b
  appendTransactionMessageInstructions := fun ixs t => t + ixs.length
  signTransactionMessageWithSigners := fun t => t * 2
  getSignatureFromTransaction := fun s => String.append "sig" (toString s)
  sendTransactionWithoutConfirming := fun _ => Except.ok ()
  sendAndConfirmTransaction := fun _ => Except.ok ()

/-- `exEnvToken` with a Token-2022 mint that is a Token-ACL mint. -/
def exEnvAcl : Env Nat Nat Nat Nat Nat String :=
  { exEnvToken with
    fetchEncodedAccount := fun _ =>
      { accountExists := true, programAddress := TOKEN_2022_PROGRAM_ADDRESS, data := [0, 1] }
    isTokenAclMintFromMint := fun _ => true }

/-- `exEnvToken` with a Token-2022 mint that is not a Token-ACL mint. -/
def exEnvNonAcl : Env Nat Nat Nat Nat Nat String :=
  { exEnvToken with
    fetchEncodedAccount := fun _ =>
      { accountExists := true, programAddress := TOKEN_2022_PROGRAM_ADDRESS, data := [0, 1] } }

/-- `exEnvToken` with a mint account that does not exist. -/
def exEnvMissing : Env Nat Nat Nat Nat Nat String :=
  { exEnvToken with
    fetchEncodedAccount := fun _ =>
      { accountExists := false, programAddress := TOKEN_PROGRAM_ADDRESS, data := [] } }

/-- `exEnvToken` with both send facilities failing with a preflight error. -/
def exEnvPreflight : Env Nat Nat Nat Nat Nat String :=
  { exEnvToken with
    sendTransactionWithoutConfirming := fun _ =>
      Except.error (SendError.preflightFailure "cause0")
    sendAndConfirmTransaction := fun _ =>
      Except.error (SendError.preflightFailure "cause0") }

/-- `exEnvToken` with both send facilities failing with a non-preflight
error. -/
def exEnvOtherErr : Env Nat Nat Nat Nat Nat String :=
  { exEnvToken with
    sendTransactionWithoutConfirming := fun _ =>
      Except.error (SendError.other "boom")
    sendAndConfirmTransaction := fun _ =>
      Except.error (SendError.other "boom") }

section Theorems

variable {ι μ β τ σ π : Type}

/-- Helper: on an invalid mint account (missing, or owned by neither token
program) the function throws immediately, with only the fetch in the trace. -/
lemma instructions_error_characterization (env : Env ι μ β τ σ π) (payer : π)
    (owner mintAddress : Address) (idempotent : Bool)
    (h : (env.fetchEncodedAccount mintAddress).accountExists = false ∨
      ((env.fetchEncodedAccount mintAddress).programAddress ≠ TOKEN_2022_PROGRAM_ADDRESS ∧
       (env.fetchEncodedAccount mintAddress).programAddress ≠ TOKEN_PROGRAM_ADDRESS)) :
    createAssociatedTokenAccountInstructions env payer owner mintAddress idempotent =
      (Except.error (JsError.jsError "Provided mintAddress is not a valid token mint"),
       [CallTag.fetchEncodedAccount mintAddress]) := by
  simp only [createAssociatedTokenAccountInstructions]
  rw [if_pos h]

/-- Helper: on a valid mint account the function returns the dispatched
instruction list, the derived PDA, and the corresponding trace. -/
lemma instructions_ok_characterization (env : Env ι μ β τ σ π) (payer : π)
    (owner mintAddress : Address) (idempotent : Bool)
    (hex : (env.fetchEncodedAccount mintAddress).accountExists = true)
    (hprog : (env.fetchEncodedAccount mintAddress).programAddress = TOKEN_PROGRAM_ADDRESS ∨
      (env.fetchEncodedAccount mintAddress).programAddress = TOKEN_2022_PROGRAM_ADDRESS) :
    createAssociatedTokenAccountInstructions env payer owner mintAddress idempotent =
      (Except.ok
        { instructions :=
            if detectedTokenProgram env mintAddress = TOKEN_PROGRAM_ADDRESS then
              [builtCreateAtaInstruction env payer owner mintAddress idempotent]
            else if env.isTokenAclMintFromMint (decodedMint env mintAddress) = true then
              [builtCreateAtaInstruction env payer owner mintAddress idempotent,
               builtThawInstruction env payer owner mintAddress idempotent]
            else
              [builtCreateAtaInstruction env payer owner mintAddress idempotent],
          associatedTokenAddress := derivedAta env owner mintAddress },
       [CallTag.fetchEncodedAccount mintAddress,
        CallTag.findAssociatedTokenPda mintAddress owner (detectedTokenProgram env mintAddress),
        CallTag.buildCreateAta idempotent] ++
        (if detectedTokenProgram env mintAddress = TOKEN_PROGRAM_ADDRESS then []
         else [CallTag.decodeMint, CallTag.isTokenAclMintFromMint] ++
           (if env.isTokenAclMintFromMint (decodedMint env mintAddress) = true then
             [CallTag.buildThawPermissionless idempotent]
            else []))) := by
  have hguard : ¬((env.fetchEncodedAccount mintAddress).accountExists = false ∨
      ((env.fetchEncodedAccount mintAddress).programAddress ≠ TOKEN_2022_PROGRAM_ADDRESS ∧
       (env.fetchEncodedAccount mintAddress).programAddress ≠ TOKEN_PROGRAM_ADDRESS)) := by
    rintro (h | ⟨h1, h2⟩)
    · rw [hex] at h
      exact Bool.noConfusion h
    · rcases hprog with hp | hp
      · exact h2 hp
      · exact h1 hp
  simp only [createAssociatedTokenAccountInstructions]
  rw [if_neg hguard]
  by_cases hTP :
      (env.fetchEncodedAccount mintAddress).programAddress = TOKEN_PROGRAM_ADDRESS
  · simp [detectedTokenProgram, derivedAta, decodedMint,
      builtCreateAtaInstruction, builtThawInstruction, hTP]
  · cases hAcl : env.isTokenAclMintFromMint
        (env.decodeMint (env.fetchEncodedAccount mintAddress).data) <;>
      simp [detectedTokenProgram, derivedAta, decodedMint,
        builtCreateAtaInstruction, builtThawInstruction, hTP, hAcl]

/-- C1: for an existing mint account owned by the Token Program or the
Token-2022 program, `createAssociatedTokenAccountInstructions` dispatches on
the owning program: exactly the create-ATA instruction when the owner is the
Token Program, or when it is Token-2022 and `isTokenAclMintFromMint` of the
decoded mint is false; and exactly the create-ATA instruction followed by the
thaw-permissionless instruction when it is Token-2022 and
`isTokenAclMintFromMint` of the decoded mint is true. -/
theorem createAssociatedTokenAccountInstructions_variant_dispatch
    (env : Env ι μ β τ σ π) (payer : π) (owner mintAddress : Address)
    (idempotent : Bool)
    (hex : (env.fetchEncodedAccount mintAddress).accountExists = true)
    (hprog : (env.fetchEncodedAccount mintAddress).programAddress = TOKEN_PROGRAM_ADDRESS ∨
      (env.fetchEncodedAccount mintAddress).programAddress = TOKEN_2022_PROGRAM_ADDRESS) :
    ((env.fetchEncodedAccount mintAddress).programAddress = TOKEN_PROGRAM_ADDRESS →
      (createAssociatedTokenAccountInstructions env payer owner mintAddress idempotent).1 =
        Except.ok
          { instructions := [builtCreateAtaInstruction env payer owner mintAddress idempotent],
            associatedTokenAddress := derivedAta env owner mintAddress }) ∧
    ((env.fetchEncodedAccount mintAddress).programAddress = TOKEN_2022_PROGRAM_ADDRESS →
      env.isTokenAclMintFromMint (decodedMint env mintAddress) = false →
      (createAssociatedTokenAccountInstructions env payer owner mintAddress idempotent).1 =
        Except.ok
          { instructions := [builtCreateAtaInstruction env payer owner mintAddress idempotent],
            associatedTokenAddress := derivedAta env owner mintAddress }) ∧
    ((env.fetchEncodedAccount mintAddress).programAddress = TOKEN_2022_PROGRAM_ADDRESS →
      env.isTokenAclMintFromMint (decodedMint env mintAddress) = true →
      (createAssociatedTokenAccountInstructions env payer owner mintAddress idempotent).1 =
        Except.ok
          { instructions := [builtCreateAtaInstruction env payer owner mintAddress idempotent,
                             builtThawInstruction env payer owner mintAddress idempotent],
            associatedTokenAddress := derivedAta env owner mintAddress }) := by
  have hchar := instructions_ok_characterization env payer owner mintAddress idempotent hex hprog
  have hne : TOKEN_2022_PROGRAM_ADDRESS ≠ TOKEN_PROGRAM_ADDRESS := by decide
  refine ⟨fun hTP => ?_, fun hT22 hAcl => ?_, fun hT22 hAcl => ?_⟩
  · rw [hchar]
    simp [detectedTokenProgram, hTP]
  · rw [hchar]
    simp [detectedTokenProgram, hT22, hne, hAcl]
  · rw [hchar]
    simp [detectedTokenProgram, hT22, hne, hAcl]

/-- Witness for C1: the three dispatch cases evaluated on concrete
environments. -/
theorem createAssociatedTokenAccountInstructions_variant_dispatch_witness :
    (createAssociatedTokenAccountInstructions exEnvToken "payer" "own" "mint" false).1 =
      Except.ok
        { instructions := [builtCreateAtaInstruction exEnvToken "payer" "own" "mint" false],
          associatedTokenAddress := derivedAta exEnvToken "own" "mint" } ∧
    (createAssociatedTokenAccountInstructions exEnvNonAcl "payer" "own" "mint" false).1 =
      Except.ok
        { instructions := [builtCreateAtaInstruction exEnvNonAcl "payer" "own" "mint" false],
          associatedTokenAddress := derivedAta exEnvNonAcl "own" "mint" } ∧
    (createAssociatedTokenAccountInstructions exEnvAcl "payer" "own" "mint" false).1 =
      Except.ok
        { instructions := [builtCreateAtaInstruction exEnvAcl "payer" "own" "mint" false,
                           builtThawInstruction exEnvAcl "payer" "own" "mint" false],
          associatedTokenAddress := derivedAta exEnvAcl "own" "mint" } :=
  ⟨(createAssociatedTokenAccountInstructions_variant_dispatch exEnvToken "payer"
      "own" "mint" false rfl (Or.inl rfl)).1 rfl,
   (createAssociatedTokenAccountInstructions_variant_dispatch exEnvNonAcl "payer"
      "own" "mint" false rfl (Or.inr rfl)).2.1 rfl rfl,
   (createAssociatedTokenAccountInstructions_variant_dispatch exEnvAcl "payer"
      "own" "mint" false rfl (Or.inr rfl)).2.2 rfl rfl⟩

/-- C2: `createAssociatedTokenAccountInstructions` throws
"Provided mintAddress is not a valid token mint" exactly when the fetched
account does not exist or is owned by neither token program; every error it
throws is that one, and in that case the trace holds only the account fetch —
no PDA derivation and no instruction building happened. -/
theorem mint_validation_error_iff (env : Env ι μ β τ σ π) (payer : π)
    (owner mintAddress : Address) (idempotent : Bool) :
    (((createAssociatedTokenAccountInstructions env payer owner mintAddress idempotent).1 =
        Except.error (JsError.jsError "Provided mintAddress is not a valid token mint")) ↔
      ((env.fetchEncodedAccount mintAddress).accountExists = false ∨
       ((env.fetchEncodedAccount mintAddress).programAddress ≠ TOKEN_2022_PROGRAM_ADDRESS ∧
        (env.fetchEncodedAccount mintAddress).programAddress ≠ TOKEN_PROGRAM_ADDRESS))) ∧
    (∀ e, (createAssociatedTokenAccountInstructions env payer owner mintAddress idempotent).1 =
        Except.error e →
      e = JsError.jsError "Provided mintAddress is not a valid token mint" ∧
      (createAssociatedTokenAccountInstructions env payer owner mintAddress idempotent).2 =
        [CallTag.fetchEncodedAccount mintAddress]) := by
  by_cases hguard : (env.fetchEncodedAccount mintAddress).accountExists = false ∨
      ((env.fetchEncodedAccount mintAddress).programAddress ≠ TOKEN_2022_PROGRAM_ADDRESS ∧
       (env.fetchEncodedAccount mintAddress).programAddress ≠ TOKEN_PROGRAM_ADDRESS)
  · have hchar := instructions_error_characterization env payer owner mintAddress idempotent hguard
    rw [hchar]
    refine ⟨⟨fun _ => hguard, fun _ => rfl⟩, fun e he => ?_⟩
    exact ⟨(Except.error.inj he).symm, rfl⟩
  · have hex : (env.fetchEncodedAccount mintAddress).accountExists = true := by
      cases hb : (env.fetchEncodedAccount mintAddress).accountExists
      · exact absurd (Or.inl hb) hguard
      · rfl
    have hprog : (env.fetchEncodedAccount mintAddress).programAddress = TOKEN_PROGRAM_ADDRESS ∨
        (env.fetchEncodedAccount mintAddress).programAddress = TOKEN_2022_PROGRAM_ADDRESS := by
      by_cases h22 :
          (env.fetchEncodedAccount mintAddress).programAddress = TOKEN_2022_PROGRAM_ADDRESS
      · exact Or.inr h22
      · by_cases hTok :
            (env.fetchEncodedAccount mintAddress).programAddress = TOKEN_PROGRAM_ADDRESS
        · exact Or.inl hTok
        · exact absurd (Or.inr ⟨h22, hTok⟩) hguard
    have hchar :=
      instructions_ok_characterization env payer owner mintAddress idempotent hex hprog
    rw [hchar]
    exact ⟨⟨fun h => absurd h (by simp), fun h => absurd h hguard⟩,
      fun e he => absurd he (by simp)⟩

/-- Witness for C2: a missing mint account yields exactly the validation
error, with only the fetch call in the trace. -/
theorem mint_validation_error_iff_witness :
    (createAssociatedTokenAccountInstructions exEnvMissing "payer" "own" "mint" false).1 =
      Except.error (JsError.jsError "Provided mintAddress is not a valid token mint") ∧
    (createAssociatedTokenAccountInstructions exEnvMissing "payer" "own" "mint" false).2 =
      [CallTag.fetchEncodedAccount "mint"] := by
  have h := mint_validation_error_iff exEnvMissing "payer" "own" "mint" false
  have herr := h.1.mpr (Or.inl rfl)
  exact ⟨herr, (h.2 _ herr).2⟩

/-- C3: each submitting function is exactly the common submission path
`submitWith` instantiated with its own external send facility — identical
instruction building, blockhash fetch, transaction-message assembly, signing
and signature extraction — and when both succeed they return the same
signature and associated-token address. -/
theorem submit_functions_assemble_identically (env : Env ι μ β τ σ π)
    (payer : π) (owner mint : Address) (idempotent : Bool) :
    (createAssociatedTokenAccount env payer owner mint idempotent =
      submitWith env env.sendTransactionWithoutConfirming SendKind.withoutConfirming
        payer owner mint idempotent) ∧
    (createAndConfirmAssociatedTokenAccount env payer owner mint idempotent =
      submitWith env env.sendAndConfirmTransaction SendKind.andConfirm
        payer owner mint idempotent) ∧
    (∀ r1 r2,
      (createAssociatedTokenAccount env payer owner mint idempotent).1 = Except.ok r1 →
      (createAndConfirmAssociatedTokenAccount env payer owner mint idempotent).1 =
        Except.ok r2 →
      r1 = r2) := by
  refine ⟨rfl, rfl, fun r1 r2 h1 h2 => ?_⟩
  rcases hI : createAssociatedTokenAccountInstructions env payer owner mint idempotent
    with ⟨res, t⟩
  cases res with
  | error e =>
    rw [createAssociatedTokenAccount, hI] at h1
    exact absurd h1 (by simp)
  | ok r =>
    rw [createAssociatedTokenAccount, hI] at h1
    rw [createAndConfirmAssociatedTokenAccount, hI] at h2
    simp only at h1 h2
    cases hs1 : env.sendTransactionWithoutConfirming
        (env.signTransactionMessageWithSigners
          (assembleTransactionMessage env payer env.getLatestBlockhash r.instructions)) with
    | error e1 =>
      rw [hs1] at h1
      cases hp : isPreflightFailureError e1 <;> simp [hp] at h1
    | ok u1 =>
      cases hs2 : env.sendAndConfirmTransaction
          (env.signTransactionMessageWithSigners
            (assembleTransactionMessage env payer env.getLatestBlockhash r.instructions)) with
      | error e2 =>
        rw [hs2] at h2
        cases hp : isPreflightFailureError e2 <;> simp [hp] at h2
      | ok u2 =>
        rw [hs1] at h1
        rw [hs2] at h2
        simp only [Except.ok.injEq] at h1 h2
        rw [← h1, ← h2]

/-- Witness for C3: on a concrete environment where both sends succeed, the
two submitting functions agree on the returned record. -/
theorem submit_functions_assemble_identically_witness :
    (createAssociatedTokenAccount exEnvToken "payer" "own" "mint" false).1 =
      Except.ok { signature := "sig36",
                  associatedTokenAddress := "ataAddr11111111111111111111111111111111111" } ∧
    (createAndConfirmAssociatedTokenAccount exEnvToken "payer" "own" "mint" false).1 =
      Except.ok { signature := "sig36",
                  associatedTokenAddress := "ataAddr11111111111111111111111111111111111" } ∧
    ∀ r1 r2,
      (createAssociatedTokenAccount exEnvToken "payer" "own" "mint" false).1 = Except.ok r1 →
      (createAndConfirmAssociatedTokenAccount exEnvToken "payer" "own" "mint" false).1 =
        Except.ok r2 →
      r1 = r2 :=
  ⟨rfl, rfl,
   (submit_functions_assemble_identically exEnvToken "payer" "own" "mint" false).2.2⟩

/-- Helper: the instruction-building phase performs no send and no signing
call. -/
lemma instructions_trace_counts (env : Env ι μ β τ σ π) (payer : π)
    (owner mintAddress : Address) (idempotent : Bool) :
    ((createAssociatedTokenAccountInstructions env payer owner mintAddress idempotent).2).countP
      isSendCall = 0 ∧
    ((createAssociatedTokenAccountInstructions env payer owner mintAddress idempotent).2).countP
      isSignCall = 0 := by
  simp only [createAssociatedTokenAccountInstructions]
  split
  · simp [List.countP_cons, isSendCall, isSignCall]
  · split <;> [skip; split] <;>
      simp [List.countP_cons, List.countP_append, isSendCall, isSignCall]

/-- Helper: the full call trace of `createAssociatedTokenAccount` when the
instruction phase succeeds, whatever the send outcome. -/
lemma createAssociatedTokenAccount_trace (env : Env ι μ β τ σ π) (payer : π)
    (owner mint : Address) (idempotent : Bool) (r : InstructionsResult ι)
    (t : List CallTag)
    (hI : createAssociatedTokenAccountInstructions env payer owner mint idempotent =
      (Except.ok r, t)) :
    (createAssociatedTokenAccount env payer owner mint idempotent).2 =
      t ++ [CallTag.getLatestBlockhash, CallTag.signTransaction,
            CallTag.getSignatureFromTransaction,
            CallTag.sendTransaction SendKind.withoutConfirming] := by
  rw [createAssociatedTokenAccount, hI]
  simp only
  cases env.sendTransactionWithoutConfirming
      (env.signTransactionMessageWithSigners
        (assembleTransactionMessage env payer env.getLatestBlockhash r.instructions)) with
  | error e1 => cases hp : isPreflightFailureError e1 <;> simp [hp]
  | ok u => simp

/-- Helper: the full call trace of `createAndConfirmAssociatedTokenAccount`
when the instruction phase succeeds, whatever the send outcome. -/
lemma createAndConfirmAssociatedTokenAccount_trace (env : Env ι μ β τ σ π)
    (payer : π) (owner mint : Address) (idempotent : Bool)
    (r : InstructionsResult ι) (t : List CallTag)
    (hI : createAssociatedTokenAccountInstructions env payer owner mint idempotent =
      (Except.ok r, t)) :
    (createAndConfirmAssociatedTokenAccount env payer owner mint idempotent).2 =
      t ++ [CallTag.getLatestBlockhash, CallTag.signTransaction,
            CallTag.getSignatureFromTransaction,
            CallTag.sendTransaction SendKind.andConfirm] := by
  rw [createAndConfirmAssociatedTokenAccount, hI]
  simp only
  cases env.sendAndConfirmTransaction
      (env.signTransactionMessageWithSigners
        (assembleTransactionMessage env payer env.getLatestBlockhash r.instructions)) with
  | error e1 => cases hp : isPreflightFailureError e1 <;> simp [hp]
  | ok u => simp

/-- C4: each submitting function invokes the external send facility at most
once; and when the instruction phase succeeded and the single send fails, the
function throws an error while the trace still carries exactly one send call —
no retry or backoff. -/
theorem send_invoked_at_most_once (env : Env ι μ β τ σ π) (payer : π)
    (owner mint : Address) (idempotent : Bool) :
    ((createAssociatedTokenAccount env payer owner mint idempotent).2.countP isSendCall ≤ 1 ∧
     (createAndConfirmAssociatedTokenAccount env payer owner mint idempotent).2.countP
       isSendCall ≤ 1) ∧
    (∀ s e, assembledSignedTransaction env payer owner mint idempotent = some s →
      env.sendTransactionWithoutConfirming s = Except.error e →
      (∃ err, (createAssociatedTokenAccount env payer owner mint idempotent).1 =
        Except.error err) ∧
      (createAssociatedTokenAccount env payer owner mint idempotent).2.countP isSendCall = 1) ∧
    (∀ s e, assembledSignedTransaction env payer owner mint idempotent = some s →
      env.sendAndConfirmTransaction s = Except.error e →
      (∃ err, (createAndConfirmAssociatedTokenAccount env payer owner mint idempotent).1 =
        Except.error err) ∧
      (createAndConfirmAssociatedTokenAccount env payer owner mint idempotent).2.countP
        isSendCall = 1) := by
  have hcounts := instructions_trace_counts env payer owner mint idempotent
  rcases hI : createAssociatedTokenAccountInstructions env payer owner mint idempotent
    with ⟨res, t⟩
  rw [hI] at hcounts
  cases res with
  | error e0 =>
    have hasm : assembledSignedTransaction env payer owner mint idempotent = none := by
      simp [assembledSignedTransaction, hI]
    rw [hasm]
    refine ⟨⟨?_, ?_⟩, fun s e hs => absurd hs (by simp), fun s e hs => absurd hs (by simp)⟩
    · rw [createAssociatedTokenAccount, hI]
      show List.countP isSendCall t ≤ 1
      have h0 : List.countP isSendCall t = 0 := hcounts.1
      rw [h0]
      exact Nat.zero_le 1
    · rw [createAndConfirmAssociatedTokenAccount, hI]
      show List.countP isSendCall t ≤ 1
      have h0 : List.countP isSendCall t = 0 := hcounts.1
      rw [h0]
      exact Nat.zero_le 1
  | ok r =>
    have hasm : assembledSignedTransaction env payer owner mint idempotent =
        some (env.signTransactionMessageWithSigners
          (assembleTransactionMessage env payer env.getLatestBlockhash r.instructions)) := by
      simp [assembledSignedTransaction, hI]
    have htr1 := createAssociatedTokenAccount_trace env payer owner mint idempotent r t hI
    have htr2 :=
      createAndConfirmAssociatedTokenAccount_trace env payer owner mint idempotent r t hI
    have hc1 :
        (createAssociatedTokenAccount env payer owner mint idempotent).2.countP isSendCall = 1 := by
      rw [htr1]
      simp [List.countP_append, List.countP_cons, isSendCall, hcounts.1]
    have hc2 :
        (createAndConfirmAssociatedTokenAccount env payer owner mint idempotent).2.countP
          isSendCall = 1 := by
      rw [htr2]
      simp [List.countP_append, List.countP_cons, isSendCall, hcounts.1]
    refine ⟨⟨Nat.le_of_eq hc1, Nat.le_of_eq hc2⟩, fun s e hs hsend => ?_, fun s e hs hsend => ?_⟩
    · rw [hasm] at hs
      have hsEq := Option.some.inj hs
      rw [← hsEq] at hsend
      refine ⟨?_, hc1⟩
      rw [createAssociatedTokenAccount, hI]
      simp only
      rw [hsend]
      cases hp : isPreflightFailureError e <;> simp [hp]
    · rw [hasm] at hs
      have hsEq := Option.some.inj hs
      rw [← hsEq] at hsend
      refine ⟨?_, hc2⟩
      rw [createAndConfirmAssociatedTokenAccount, hI]
      simp only
      rw [hsend]
      cases hp : isPreflightFailureError e <;> simp [hp]

/-- Witness for C4: on a concrete environment whose send facilities fail, each
function throws and its trace carries exactly one send call. -/
theorem send_invoked_at_most_once_witness :
    (∃ err, (createAssociatedTokenAccount exEnvOtherErr "payer" "own" "mint" false).1 =
      Except.error err) ∧
    (createAssociatedTokenAccount exEnvOtherErr "payer" "own" "mint" false).2.countP
      isSendCall = 1 :=
  (send_invoked_at_most_once exEnvOtherErr "payer" "own" "mint" false).2.1 36
    (SendError.other "boom") rfl rfl

/-- Helper: outcome of `createAssociatedTokenAccount` when its single send
fails. -/
lemma createAssociatedTokenAccount_send_error (env : Env ι μ β τ σ π) (payer : π)
    (owner mint : Address) (idempotent : Bool) (r : InstructionsResult ι)
    (t : List CallTag) (e : SendError)
    (hI : createAssociatedTokenAccountInstructions env payer owner mint idempotent =
      (Except.ok r, t))
    (hsend : env.sendTransactionWithoutConfirming
      (env.signTransactionMessageWithSigners
        (assembleTransactionMessage env payer env.getLatestBlockhash r.instructions)) =
      Except.error e) :
    (createAssociatedTokenAccount env payer owner mint idempotent).1 =
      if isPreflightFailureError e then
        Except.error (JsError.jsError "The transaction failed in simulation")
      else
        Except.error (JsError.solanaError e) := by
  rw [createAssociatedTokenAccount, hI]
  simp only
  rw [hsend]
  cases hp : isPreflightFailureError e <;> simp [hp]

/-- Helper: outcome of `createAndConfirmAssociatedTokenAccount` when its
single send fails. -/
lemma createAndConfirmAssociatedTokenAccount_send_error (env : Env ι μ β τ σ π)
    (payer : π) (owner mint : Address) (idempotent : Bool)
    (r : InstructionsResult ι) (t : List CallTag) (e : SendError)
    (hI : createAssociatedTokenAccountInstructions env payer owner mint idempotent =
      (Except.ok r, t))
    (hsend : env.sendAndConfirmTransaction
      (env.signTransactionMessageWithSigners
        (assembleTransactionMessage env payer env.getLatestBlockhash r.instructions)) =
      Except.error e) :
    (createAndConfirmAssociatedTokenAccount env payer owner mint idempotent).1 =
      if isPreflightFailureError e then
        Except.error (JsError.jsError "The transaction failed in simulation")
      else
        Except.error (JsError.solanaError e) := by
  rw [createAndConfirmAssociatedTokenAccount, hI]
  simp only
  rw [hsend]
  cases hp : isPreflightFailureError e <;> simp [hp]

/-- C5: in both submitting functions, a preflight-failure send error becomes
`new Error("The transaction failed in simulation")`, any other send error is
rethrown unchanged, and in either case no `{signature, associatedTokenAddress}`
result is returned. -/
theorem send_error_translation (env : Env ι μ β τ σ π) (payer : π)
    (owner mint : Address) (idempotent : Bool) :
    (∀ s c, assembledSignedTransaction env payer owner mint idempotent = some s →
      env.sendTransactionWithoutConfirming s =
        Except.error (SendError.preflightFailure c) →
      (createAssociatedTokenAccount env payer owner mint idempotent).1 =
        Except.error (JsError.jsError "The transaction failed in simulation")) ∧
    (∀ s pl, assembledSignedTransaction env payer owner mint idempotent = some s →
      env.sendTransactionWithoutConfirming s = Except.error (SendError.other pl) →
      (createAssociatedTokenAccount env payer owner mint idempotent).1 =
        Except.error (JsError.solanaError (SendError.other pl))) ∧
    (∀ s c, assembledSignedTransaction env payer owner mint idempotent = some s →
      env.sendAndConfirmTransaction s = Except.error (SendError.preflightFailure c) →
      (createAndConfirmAssociatedTokenAccount env payer owner mint idempotent).1 =
        Except.error (JsError.jsError "The transaction failed in simulation")) ∧
    (∀ s pl, assembledSignedTransaction env payer owner mint idempotent = some s →
      env.sendAndConfirmTransaction s = Except.error (SendError.other pl) →
      (createAndConfirmAssociatedTokenAccount env payer owner mint idempotent).1 =
        Except.error (JsError.solanaError (SendError.other pl))) ∧
    (∀ s e, assembledSignedTransaction env payer owner mint idempotent = some s →
      env.sendTransactionWithoutConfirming s = Except.error e →
      ∀ res, (createAssociatedTokenAccount env payer owner mint idempotent).1 ≠
        Except.ok res) ∧
    (∀ s e, assembledSignedTransaction env payer owner mint idempotent = some s →
      env.sendAndConfirmTransaction s = Except.error e →
      ∀ res, (createAndConfirmAssociatedTokenAccount env payer owner mint idempotent).1 ≠
        Except.ok res) := by
  rcases hI : createAssociatedTokenAccountInstructions env payer owner mint idempotent
    with ⟨resI, t⟩
  cases resI with
  | error e0 =>
    have hasm : assembledSignedTransaction env payer owner mint idempotent = none := by
      simp [assembledSignedTransaction, hI]
    rw [hasm]
    exact ⟨fun s c hs => absurd hs (by simp), fun s pl hs => absurd hs (by simp),
      fun s c hs => absurd hs (by simp), fun s pl hs => absurd hs (by simp),
      fun s e hs => absurd hs (by simp), fun s e hs => absurd hs (by simp)⟩
  | ok r =>
    have hasm : assembledSignedTransaction env payer owner mint idempotent =
        some (env.signTransactionMessageWithSigners
          (assembleTransactionMessage env payer env.getLatestBlockhash r.instructions)) := by
      simp [assembledSignedTransaction, hI]
    rw [hasm]
    refine ⟨fun s c hs hsend => ?_, fun s pl hs hsend => ?_,
      fun s c hs hsend => ?_, fun s pl hs hsend => ?_,
      fun s e hs hsend => ?_, fun s e hs hsend => ?_⟩ <;>
      rw [← Option.some.inj hs] at hsend
    · rw [createAssociatedTokenAccount_send_error env payer owner mint idempotent r t _ hI hsend]
      simp [isPreflightFailureError]
    · rw [createAssociatedTokenAccount_send_error env payer owner mint idempotent r t _ hI hsend]
      simp [isPreflightFailureError]
    · rw [createAndConfirmAssociatedTokenAccount_send_error env payer owner mint idempotent
        r t _ hI hsend]
      simp [isPreflightFailureError]
    · rw [createAndConfirmAssociatedTokenAccount_send_error env payer owner mint idempotent
        r t _ hI hsend]
      simp [isPreflightFailureError]
    · intro res
      rw [createAssociatedTokenAccount_send_error env payer owner mint idempotent r t _ hI hsend]
      cases hp : isPreflightFailureError e <;> simp [hp]
    · intro res
      rw [createAndConfirmAssociatedTokenAccount_send_error env payer owner mint idempotent
        r t _ hI hsend]
      cases hp : isPreflightFailureError e <;> simp [hp]

/-- Witness for C5: concrete preflight and non-preflight send failures are
translated as claimed. -/
theorem send_error_translation_witness :
    (createAssociatedTokenAccount exEnvPreflight "payer" "own" "mint" false).1 =
      Except.error (JsError.jsError "The transaction failed in simulation") ∧
    (createAssociatedTokenAccount exEnvOtherErr "payer" "own" "mint" true).1 =
      Except.error (JsError.solanaError (SendError.other "boom")) :=
  ⟨(send_error_translation exEnvPreflight "payer" "own" "mint" false).1 36 "cause0" rfl rfl,
   (send_error_translation exEnvOtherErr "payer" "own" "mint" true).2.1 36 "boom" rfl rfl⟩

/-- Helper: the record returned by `createAssociatedTokenAccount` on
success. -/
lemma createAssociatedTokenAccount_ok_characterization (env : Env ι μ β τ σ π)
    (payer : π) (owner mint : Address) (idempotent : Bool)
    (r : InstructionsResult ι) (t : List CallTag) (sr : SubmitResult)
    (hI : createAssociatedTokenAccountInstructions env payer owner mint idempotent =
      (Except.ok r, t))
    (h : (createAssociatedTokenAccount env payer owner mint idempotent).1 = Except.ok sr) :
    sr = { signature := env.getSignatureFromTransaction
             (env.signTransactionMessageWithSigners
               (assembleTransactionMessage env payer env.getLatestBlockhash r.instructions)),
           associatedTokenAddress := r.associatedTokenAddress } := by
  rw [createAssociatedTokenAccount, hI] at h
  simp only at h
  cases hs : env.sendTransactionWithoutConfirming
      (env.signTransactionMessageWithSigners
        (assembleTransactionMessage env payer env.getLatestBlockhash r.instructions)) with
  | error e =>
    rw [hs] at h
    cases hp : isPreflightFailureError e <;> simp [hp] at h
  | ok u =>
    rw [hs] at h
    exact (Except.ok.inj h).symm

/-- Helper: the record returned by `createAndConfirmAssociatedTokenAccount` on
success. -/
lemma createAndConfirmAssociatedTokenAccount_ok_characterization
    (env : Env ι μ β τ σ π) (payer : π) (owner mint : Address) (idempotent : Bool)
    (r : InstructionsResult ι) (t : List CallTag) (sr : SubmitResult)
    (hI : createAssociatedTokenAccountInstructions env payer owner mint idempotent =
      (Except.ok r, t))
    (h : (createAndConfirmAssociatedTokenAccount env payer owner mint idempotent).1 =
      Except.ok sr) :
    sr = { signature := env.getSignatureFromTransaction
             (env.signTransactionMessageWithSigners
               (assembleTransactionMessage env payer env.getLatestBlockhash r.instructions)),
           associatedTokenAddress := r.associatedTokenAddress } := by
  rw [createAndConfirmAssociatedTokenAccount, hI] at h
  simp only at h
  cases hs : env.sendAndConfirmTransaction
      (env.signTransactionMessageWithSigners
        (assembleTransactionMessage env payer env.getLatestBlockhash r.instructions)) with
  | error e =>
    rw [hs] at h
    cases hp : isPreflightFailureError e <;> simp [hp] at h
  | ok u =>
    rw [hs] at h
    exact (Except.ok.inj h).symm

/-- Helper: every successful result of the instruction-building function is
the dispatched record of `instructions_ok_characterization`. -/
lemma instructions_ok_inversion (env : Env ι μ β τ σ π) (payer : π)
    (owner mintAddress : Address) (idempotent : Bool) (r : InstructionsResult ι)
    (h : (createAssociatedTokenAccountInstructions env payer owner mintAddress idempotent).1 =
      Except.ok r) :
    r = { instructions :=
            if detectedTokenProgram env mintAddress = TOKEN_PROGRAM_ADDRESS then
              [builtCreateAtaInstruction env payer owner mintAddress idempotent]
            else if env.isTokenAclMintFromMint (decodedMint env mintAddress) = true then
              [builtCreateAtaInstruction env payer owner mintAddress idempotent,
               builtThawInstruction env payer owner mintAddress idempotent]
            else
              [builtCreateAtaInstruction env payer owner mintAddress idempotent],
          associatedTokenAddress := derivedAta env owner mintAddress } := by
  by_cases hguard : (env.fetchEncodedAccount mintAddress).accountExists = false ∨
      ((env.fetchEncodedAccount mintAddress).programAddress ≠ TOKEN_2022_PROGRAM_ADDRESS ∧
       (env.fetchEncodedAccount mintAddress).programAddress ≠ TOKEN_PROGRAM_ADDRESS)
  · rw [instructions_error_characterization env payer owner mintAddress idempotent hguard] at h
    exact absurd h (by simp)
  · have hex : (env.fetchEncodedAccount mintAddress).accountExists = true := by
      cases hb : (env.fetchEncodedAccount mintAddress).accountExists
      · exact absurd (Or.inl hb) hguard
      · rfl
    have hprog :
        (env.fetchEncodedAccount mintAddress).programAddress = TOKEN_PROGRAM_ADDRESS ∨
        (env.fetchEncodedAccount mintAddress).programAddress = TOKEN_2022_PROGRAM_ADDRESS := by
      by_cases h22 :
          (env.fetchEncodedAccount mintAddress).programAddress = TOKEN_2022_PROGRAM_ADDRESS
      · exact Or.inr h22
      · by_cases hTok :
            (env.fetchEncodedAccount mintAddress).programAddress = TOKEN_PROGRAM_ADDRESS
        · exact Or.inl hTok
        · exact absurd (Or.inr ⟨h22, hTok⟩) hguard
    rw [instructions_ok_characterization env payer owner mintAddress idempotent hex hprog] at h
    exact (Except.ok.inj h).symm

/-- C6: the associated-token address returned on success — by the
instruction-building function and by both submitting functions — is the PDA
computed by `findAssociatedTokenPda` from the mint, the owner and the mint's
detected token program under the associated token program; the same address is
the `ata` field of the create instruction heading the returned list. -/
theorem associatedTokenAddress_is_derived_pda (env : Env ι μ β τ σ π)
    (payer : π) (owner mint : Address) (idempotent : Bool) :
    (∀ r, (createAssociatedTokenAccountInstructions env payer owner mint idempotent).1 =
        Except.ok r →
      r.associatedTokenAddress =
        (env.findAssociatedTokenPda
          { mint := mint, owner := owner,
            tokenProgram := (env.fetchEncodedAccount mint).programAddress }
          { programAddress := ASSOCIATED_TOKEN_PROGRAM_ADDRESS }).1 ∧
      r.instructions.head? = some
        (if idempotent then
          env.getCreateAssociatedTokenIdempotentInstruction
            { ata := r.associatedTokenAddress, mint := mint, owner := owner,
              payer := payer,
              tokenProgram := (env.fetchEncodedAccount mint).programAddress }
            { programAddress := ASSOCIATED_TOKEN_PROGRAM_ADDRESS }
         else
          env.getCreateAssociatedTokenInstruction
            { ata := r.associatedTokenAddress, mint := mint, owner := owner,
              payer := payer,
              tokenProgram := (env.fetchEncodedAccount mint).programAddress }
            { programAddress := ASSOCIATED_TOKEN_PROGRAM_ADDRESS })) ∧
    (∀ sr, (createAssociatedTokenAccount env payer owner mint idempotent).1 =
        Except.ok sr →
      sr.associatedTokenAddress =
        (env.findAssociatedTokenPda
          { mint := mint, owner := owner,
            tokenProgram := (env.fetchEncodedAccount mint).programAddress }
          { programAddress := ASSOCIATED_TOKEN_PROGRAM_ADDRESS }).1) ∧
    (∀ sr, (createAndConfirmAssociatedTokenAccount env payer owner mint idempotent).1 =
        Except.ok sr →
      sr.associatedTokenAddress =
        (env.findAssociatedTokenPda
          { mint := mint, owner := owner,
            tokenProgram := (env.fetchEncodedAccount mint).programAddress }
          { programAddress := ASSOCIATED_TOKEN_PROGRAM_ADDRESS }).1) := by
  have hata : ∀ r,
      (createAssociatedTokenAccountInstructions env payer owner mint idempotent).1 =
        Except.ok r →
      r.associatedTokenAddress =
        (env.findAssociatedTokenPda
          { mint := mint, owner := owner,
            tokenProgram := (env.fetchEncodedAccount mint).programAddress }
          { programAddress := ASSOCIATED_TOKEN_PROGRAM_ADDRESS }).1 := by
    intro r h
    rw [instructions_ok_inversion env payer owner mint idempotent r h]
    rfl
  refine ⟨fun r h => ⟨hata r h, ?_⟩, fun sr h => ?_, fun sr h => ?_⟩
  · rw [instructions_ok_inversion env payer owner mint idempotent r h]
    cases idempotent <;> split <;> first | rfl | (split <;> rfl)
  · rcases hI : createAssociatedTokenAccountInstructions env payer owner mint idempotent
      with ⟨resI, t⟩
    cases resI with
    | error e0 =>
      rw [createAssociatedTokenAccount, hI] at h
      exact absurd h (by simp)
    | ok r =>
      rw [createAssociatedTokenAccount_ok_characterization env payer owner mint idempotent
        r t sr hI h]
      exact hata r (by rw [hI])
  · rcases hI : createAssociatedTokenAccountInstructions env payer owner mint idempotent
      with ⟨resI, t⟩
    cases resI with
    | error e0 =>
      rw [createAndConfirmAssociatedTokenAccount, hI] at h
      exact absurd h (by simp)
    | ok r =>
      rw [createAndConfirmAssociatedTokenAccount_ok_characterization env payer owner mint
        idempotent r t sr hI h]
      exact hata r (by rw [hI])

/-- Witness for C6: on a concrete Token-Program mint, the returned address is
the PDA and it heads the create instruction's input. -/
theorem associatedTokenAddress_is_derived_pda_witness :
    (createAssociatedTokenAccountInstructions exEnvToken "payer" "own" "mint" false).1 =
      Except.ok { instructions := [1],
                  associatedTokenAddress := "ataAddr11111111111111111111111111111111111" } ∧
    "ataAddr11111111111111111111111111111111111" =
      (exEnvToken.findAssociatedTokenPda
        { mint := "mint", owner := "own",
          tokenProgram := (exEnvToken.fetchEncodedAccount "mint").programAddress }
        { programAddress := ASSOCIATED_TOKEN_PROGRAM_ADDRESS }).1 := by
  refine ⟨rfl, ?_⟩
  have h := (associatedTokenAddress_is_derived_pda exEnvToken "payer" "own" "mint" false).1
    { instructions := [1],
      associatedTokenAddress := "ataAddr11111111111111111111111111111111111" } rfl
  exact h.1

/-- C7: every instruction returned by
`createAssociatedTokenAccountInstructions` is the unmodified output of an
external builder: the list is either exactly the built create-ATA instruction,
or exactly that instruction followed by the built thaw-permissionless
instruction.  The instruction type `ι` is abstract, so the function cannot
construct an instruction of its own. -/
theorem instructions_are_builder_outputs (env : Env ι μ β τ σ π) (payer : π)
    (owner mint : Address) (idempotent : Bool) :
    ∀ r, (createAssociatedTokenAccountInstructions env payer owner mint idempotent).1 =
        Except.ok r →
      r.instructions = [builtCreateAtaInstruction env payer owner mint idempotent] ∨
      r.instructions = [builtCreateAtaInstruction env payer owner mint idempotent,
                        builtThawInstruction env payer owner mint idempotent] := by
  intro r h
  rw [instructions_ok_inversion env payer owner mint idempotent r h]
  simp only
  split
  · exact Or.inl rfl
  · split
    · exact Or.inr rfl
    · exact Or.inl rfl

/-- Witness for C7: evaluated on a concrete ACL mint, the returned list is the
two builder outputs. -/
theorem instructions_are_builder_outputs_witness :
    ({ instructions := [1, 3],
       associatedTokenAddress :=
         "ataAddr11111111111111111111111111111111111" } : InstructionsResult Nat).instructions =
        [builtCreateAtaInstruction exEnvAcl "payer" "own" "mint" false] ∨
    ({ instructions := [1, 3],
       associatedTokenAddress :=
         "ataAddr11111111111111111111111111111111111" } : InstructionsResult Nat).instructions =
        [builtCreateAtaInstruction exEnvAcl "payer" "own" "mint" false,
         builtThawInstruction exEnvAcl "payer" "own" "mint" false] :=
  instructions_are_builder_outputs exEnvAcl "payer" "own" "mint" false
    { instructions := [1, 3],
      associatedTokenAddress := "ataAddr11111111111111111111111111111111111" } rfl

/-- Helper: in a sequence of module invocations, the result at any position
is the result of running that invocation alone. -/
lemma runModuleCalls_get_middle (env : Env ι μ β τ σ π) :
    ∀ (pre post : List (ModuleCall π)) (c : ModuleCall π),
      (runModuleCalls env (pre ++ c :: post)).get? pre.length =
        some (runModuleCall env c) := by
  intro pre
  induction pre with
  | nil => intro post c; rfl
  | cons a as ih =>
    intro post c
    simpa [runModuleCalls] using ih post c

/-- C8: the exported functions are stateless across calls — running the same
invocation against the same collaborators yields the same result at whatever
position it occupies in whatever sequence of other invocations. -/
theorem exported_functions_stateless (env : Env ι μ β τ σ π)
    (pre1 post1 pre2 post2 : List (ModuleCall π)) (c : ModuleCall π) :
    (runModuleCalls env (pre1 ++ c :: post1)).get? pre1.length =
      some (runModuleCall env c) ∧
    (runModuleCalls env (pre1 ++ c :: post1)).get? pre1.length =
      (runModuleCalls env (pre2 ++ c :: post2)).get? pre2.length :=
  ⟨runModuleCalls_get_middle env pre1 post1 c,
   (runModuleCalls_get_middle env pre1 post1 c).trans
     (runModuleCalls_get_middle env pre2 post2 c).symm⟩

/-- C9: in all three exported functions an omitted `idempotent` argument means
`false`; the flag selects the idempotent versus plain create instruction, and
it is forwarded unchanged to the thaw builder when a thaw instruction is
present. -/
theorem idempotent_flag_selection (env : Env ι μ β τ σ π) (payer : π)
    (owner mint : Address) :
    (createAssociatedTokenAccountInstructionsDefault env payer owner mint =
      createAssociatedTokenAccountInstructions env payer owner mint false) ∧
    (createAssociatedTokenAccountDefault env payer owner mint =
      createAssociatedTokenAccount env payer owner mint false) ∧
    (createAndConfirmAssociatedTokenAccountDefault env payer owner mint =
      createAndConfirmAssociatedTokenAccount env payer owner mint false) ∧
    (∀ idempotent r,
      (createAssociatedTokenAccountInstructions env payer owner mint idempotent).1 =
        Except.ok r →
      r.instructions.head? = some
        (if idempotent then
          env.getCreateAssociatedTokenIdempotentInstruction
            { ata := derivedAta env owner mint, mint := mint, owner := owner,
              payer := payer, tokenProgram := detectedTokenProgram env mint }
            { programAddress := ASSOCIATED_TOKEN_PROGRAM_ADDRESS }
         else
          env.getCreateAssociatedTokenInstruction
            { ata := derivedAta env owner mint, mint := mint, owner := owner,
              payer := payer, tokenProgram := detectedTokenProgram env mint }
            { programAddress := ASSOCIATED_TOKEN_PROGRAM_ADDRESS }) ∧
      (∀ ix, r.instructions.get? 1 = some ix →
        ix = env.createThawPermissionlessInstructionFromMint (decodedMint env mint)
          mint owner (derivedAta env owner mint) payer idempotent)) := by
  refine ⟨rfl, rfl, rfl, fun idempotent r h => ?_⟩
  rw [instructions_ok_inversion env payer owner mint idempotent r h]
  constructor
  · cases idempotent <;> split <;> first | rfl | (split <;> rfl)
  · intro ix hix
    simp only at hix
    rcases hsplit : (if detectedTokenProgram env mint = TOKEN_PROGRAM_ADDRESS then
        [builtCreateAtaInstruction env payer owner mint idempotent]
      else if env.isTokenAclMintFromMint (decodedMint env mint) = true then
        [builtCreateAtaInstruction env payer owner mint idempotent,
         builtThawInstruction env payer owner mint idempotent]
      else
        [builtCreateAtaInstruction env payer owner mint idempotent]) with l
    rw [hsplit] at hix
    revert hix
    rw [← hsplit]
    split <;> intro hix
    · exact absurd hix (by simp)
    · split at hix
      · exact (Option.some.inj hix).symm
      · exact absurd hix (by simp)

/-- Witness for C9: on a concrete ACL mint with `idempotent = true`, the head
is the idempotent builder's output and the second instruction is the thaw
builder's output with the flag forwarded. -/
theorem idempotent_flag_selection_witness :
    ({ instructions := [2, 3],
       associatedTokenAddress :=
         "ataAddr11111111111111111111111111111111111" } : InstructionsResult Nat).instructions.head? =
      some
        (if true then
          exEnvAcl.getCreateAssociatedTokenIdempotentInstruction
            { ata := derivedAta exEnvAcl "own" "mint", mint := "mint", owner := "own",
              payer := "payer", tokenProgram := detectedTokenProgram exEnvAcl "mint" }
            { programAddress := ASSOCIATED_TOKEN_PROGRAM_ADDRESS }
         else
          exEnvAcl.getCreateAssociatedTokenInstruction
            { ata := derivedAta exEnvAcl "own" "mint", mint := "mint", owner := "own",
              payer := "payer", tokenProgram := detectedTokenProgram exEnvAcl "mint" }
            { programAddress := ASSOCIATED_TOKEN_PROGRAM_ADDRESS }) ∧
    (3 : Nat) = exEnvAcl.createThawPermissionlessInstructionFromMint
      (decodedMint exEnvAcl "mint") "mint" "own" (derivedAta exEnvAcl "own" "mint")
      "payer" true := by
  have h := (idempotent_flag_selection exEnvAcl "payer" "own" "mint").2.2.2 true
    { instructions := [2, 3],
      associatedTokenAddress := "ataAddr11111111111111111111111111111111111" } rfl
  exact ⟨h.1, h.2 3 rfl⟩

/-- C10: in both submitting functions, the transaction is signed only through
the external `signTransactionMessageWithSigners` collaborator (exactly one
signing call appears in the trace), the returned signature is exactly
`getSignatureFromTransaction` of that signed transaction, and it is computed
before the transaction is handed to the send facility. -/
theorem signing_delegated_and_signature_before_send (env : Env ι μ β τ σ π)
    (payer : π) (owner mint : Address) (idempotent : Bool) :
    ∀ r t, createAssociatedTokenAccountInstructions env payer owner mint idempotent =
        (Except.ok r, t) →
      ((createAssociatedTokenAccount env payer owner mint idempotent).2 =
        t ++ [CallTag.getLatestBlockhash, CallTag.signTransaction,
              CallTag.getSignatureFromTransaction,
              CallTag.sendTransaction SendKind.withoutConfirming] ∧
       (createAssociatedTokenAccount env payer owner mint idempotent).2.countP
         isSignCall = 1 ∧
       (∀ sr, (createAssociatedTokenAccount env payer owner mint idempotent).1 =
          Except.ok sr →
        sr.signature = env.getSignatureFromTransaction
          (env.signTransactionMessageWithSigners
            (assembleTransactionMessage env payer env.getLatestBlockhash r.instructions)))) ∧
      ((createAndConfirmAssociatedTokenAccount env payer owner mint idempotent).2 =
        t ++ [CallTag.getLatestBlockhash, CallTag.signTransaction,
              CallTag.getSignatureFromTransaction,
              CallTag.sendTransaction SendKind.andConfirm] ∧
       (createAndConfirmAssociatedTokenAccount env payer owner mint idempotent).2.countP
         isSignCall = 1 ∧
       (∀ sr, (createAndConfirmAssociatedTokenAccount env payer owner mint idempotent).1 =
          Except.ok sr →
        sr.signature = env.getSignatureFromTransaction
          (env.signTransactionMessageWithSigners
            (assembleTransactionMessage env payer env.getLatestBlockhash r.instructions)))) := by
  intro r t hI
  have hcounts := instructions_trace_counts env payer owner mint idempotent
  rw [hI] at hcounts
  have ht0 : List.countP isSignCall t = 0 := hcounts.2
  refine ⟨⟨createAssociatedTokenAccount_trace env payer owner mint idempotent r t hI, ?_, ?_⟩,
    ⟨createAndConfirmAssociatedTokenAccount_trace env payer owner mint idempotent r t hI,
     ?_, ?_⟩⟩
  · rw [createAssociatedTokenAccount_trace env payer owner mint idempotent r t hI]
    simp [List.countP_append, List.countP_cons, isSignCall, ht0]
  · intro sr h
    rw [createAssociatedTokenAccount_ok_characterization env payer owner mint idempotent
      r t sr hI h]
  · rw [createAndConfirmAssociatedTokenAccount_trace env payer owner mint idempotent r t hI]
    simp [List.countP_append, List.countP_cons, isSignCall, ht0]
  · intro sr h
    rw [createAndConfirmAssociatedTokenAccount_ok_characterization env payer owner mint
      idempotent r t sr hI h]

/-- Witness for C10: the trace and signature facts evaluated on a concrete
environment. -/
theorem signing_delegated_and_signature_before_send_witness :
    (createAssociatedTokenAccount exEnvToken "payer" "own" "mint" false).2 =
      [CallTag.fetchEncodedAccount "mint",
       CallTag.findAssociatedTokenPda "mint" "own" TOKEN_PROGRAM_ADDRESS,
       CallTag.buildCreateAta false] ++
      [CallTag.getLatestBlockhash, CallTag.signTransaction,
       CallTag.getSignatureFromTransaction,
       CallTag.sendTransaction SendKind.withoutConfirming] ∧
    (createAssociatedTokenAccount exEnvToken "payer" "own" "mint" false).2.countP
      isSignCall = 1 :=
  have h := signing_delegated_and_signature_before_send exEnvToken "payer" "own" "mint" false
    { instructions := [1],
      associatedTokenAddress := "ataAddr11111111111111111111111111111111111" }
    [CallTag.fetchEncodedAccount "mint",
     CallTag.findAssociatedTokenPda "mint" "own" TOKEN_PROGRAM_ADDRESS,
     CallTag.buildCreateAta false] rfl
  ⟨h.1.1, h.1.2.1⟩

end Theorems

end TokenHelpers
